import Mathlib

/-!
Shallow embedding of the two arcaflow node-control plugins
(`aws_control_plugin.py` and `bm_control_plugin.py`): address parsing,
precondition checking, action dispatch, the state-reconciliation wait loops
and result reporting, modelled as pure functions over an explicit backend
environment (an oracle for observed power states and for backend failures).
-/

namespace PyStr

/-- Python `str.find` restricted to a nonempty needle `sub`: the index of the
first occurrence of `sub` in `s`, or `none` (Python returns `-1`). The program
only ever searches for `"://"` and `":"`, both nonempty, so the empty-needle
case of `str.find` (which returns 0) never arises. -/
def pyFind (sub : List Char) : List Char → Option Nat
  | [] => none
  | c :: rest =>
    if sub.isPrefixOf (c :: rest) then some 0
    else (pyFind sub rest).map Nat.succ

/-- `sub` occurs in `s` at index `i` and at no earlier index. -/
def isFirstOccurrenceAt (sub s : List Char) (i : Nat) : Prop :=
  sub <+: s.drop i ∧ ∀ j, j < i → ¬ sub <+: s.drop j

instance (sub s : List Char) (i : Nat) : Decidable (isFirstOccurrenceAt sub s i) := by
  unfold isFirstOccurrenceAt
  infer_instance

/-- Model of Python `int()` as applied to the port substring of an address:
it succeeds exactly on nonempty strings of decimal digits, returning their
value; on anything else `int()` raises `ValueError`, modelled as `none`.
(Python additionally tolerates a sign and surrounding whitespace, which cannot
occur inside the host:port part of an address.) -/
def pythonInt (s : List Char) : Option Nat :=
  if s ≠ [] ∧ s.all (fun c => c.isDigit) then
    some (s.foldl (fun acc c => 10 * acc + (c.toNat - 48)) 0)
  else none

end PyStr

/-- The tagged step output shared by both plugins: `("success", SuccessOutput)`
or `("error", ErrorOutput)`. -/
inductive StepOutput
  | success (ms_duration : Nat) (final_power_state_on : Bool)
  | error (msg : String)
deriving DecidableEq

/-- How a plugin invocation ends: a normally returned tagged output, or an
uncaught Python exception propagating out of the step function. -/
inductive PyResult
  | ret (out : StepOutput)
  | raised (exn : String)
deriving DecidableEq

namespace BM

/-- `NodeAction` of bm_control_plugin.py. -/
inductive NodeAction
  | stop | start | reboot | hard_reset | diagnostic_interrupt | soft_stop
deriving DecidableEq

/-- The `.value` string of each enum member. -/
def NodeAction.value : NodeAction → String
  | .stop => "stop"
  | .start => "start"
  | .reboot => "reboot"
  | .hard_reset => "hard_reset"
  | .diagnostic_interrupt => "diagnostic_interrupt"
  | .soft_stop => "soft_stop"

/-- The `nodeActionEnumToInt` dict: the chassis-control code for each action
value string. -/
def nodeActionEnumToInt : String → Option Nat := fun s =>
  [("stop", 0), ("start", 1), ("reboot", 2), ("hard_reset", 3),
   ("diagnostic_interrupt", 4), ("soft_stop", 5)].lookup s

/-- `NodeActionParams` of bm_control_plugin.py. `user` and `password` are
`Option` because `get_ipmi_connection` checks them against `None`. -/
structure NodeActionParams where
  action : NodeAction
  addr : List Char
  user : Option String
  password : Option String
  wait : Bool
  wait_timeout : Nat

/-- Observable backend effects of one `ipmi_action` invocation. -/
inductive BmEffect
  | establish
  | chassisControl (code : Nat)
  | queryStatus
deriving DecidableEq

/-- Environment describing how the IPMI backend behaves during one
invocation: whether `session.establish()` raises `IpmiConnectionError` (and
with what message), whether `chassis_control` raises, and the power state
reported by the k-th `get_chassis_status()` query (queries are numbered in
issue order; each query is a fresh read of this oracle). -/
structure IpmiEnv where
  establishErr : Option String
  dispatchErr : Option String
  states : Nat → Bool

/-- `"://"`. -/
def schemeChars : List Char := [':', '/', '/']

/-- Lines 84-88 of bm_control_plugin.py: strip everything up to and including
the first `"://"` (if any) from the address. -/
def hostAfterScheme (addr : List Char) : List Char :=
  match PyStr.pyFind schemeChars addr with
  | none => addr
  | some i => addr.drop (i + 3)

/-- Lines 89-94: split the remaining host at the first `":"` into host and
integer port, defaulting the port to 623; `none` when `int()` raises
`ValueError` on the port substring. -/
def parseHostPort (addr : List Char) : Option (List Char × Nat) :=
  let host0 := hostAfterScheme addr
  match PyStr.pyFind [':'] host0 with
  | none => some (host0, 623)
  | some j =>
    (PyStr.pythonInt (host0.drop (j + 1))).map (fun port => (host0.take j, port))

/-- The credentials error message returned by `get_ipmi_connection`
(lines 96-99), with the two source-string pieces concatenated. -/
def missingCredsMsg : String :=
  "Missing IPMI BMI user and/or password for baremetal cloud. " ++
    "Please specify either a global or per-machine user and pass"

/-- How `get_ipmi_connection` ends. -/
inductive ConnStage
  | parseError
  | missingCreds (msg : String)
  | establishFail (msg : String)
  | ok
deriving DecidableEq

/-- Model of `get_ipmi_connection` (lines 83-110): parse the address (a bad
port substring raises `ValueError` before anything else happens), then check
the credentials for `None`, then establish the session (which may raise
`IpmiConnectionError`). The trace records the `establish()` attempt. -/
def get_ipmi_connection (env : IpmiEnv) (addr : List Char)
    (user passwd : Option String) : ConnStage × List BmEffect :=
  match parseHostPort addr with
  | none => (ConnStage.parseError, [])
  | some _hp =>
    if user = none ∨ passwd = none then
      (ConnStage.missingCreds missingCredsMsg, [])
    else
      match env.establishErr with
      | some e => (ConnStage.establishFail e, [BmEffect.establish])
      | none => (ConnStage.ok, [BmEffect.establish])

/-- The poll loop of `wait_for_power_state` (lines 113-117), with time in
0.5-second ticks: at tick `k` it issues the fresh query `query k`; if the
result equals the desired state the loop exits, otherwise it sleeps 0.5 s and
continues while the deadline has not passed. `fuel` is the number of ticks
left before the deadline. Returns the index of the last query issued. -/
def waitLoop (query : Nat → Bool) (desired : Bool) : Nat → Nat → Nat
  | 0, k => k
  | fuel + 1, k => if query k = desired then k else waitLoop query desired fuel (k + 1)

/-- Model of `wait_for_power_state(connection, desired, timeout)`:
`timeout_time = time.time() + timeout`, then poll `get_chassis_status()` with
a 0.5 s sleep between queries until the observed state equals `desired` or
`time.time() < timeout_time` fails. The k-th guard evaluation queries at time
`0.5 * k` seconds from entry, so the deadline check becomes `k < 2 * timeout`.
Returns the index of the last query issued (so `k` sleeps were performed and
`k + 1` fresh queries were made). -/
def wait_for_power_state (query : Nat → Bool) (desired : Bool) (timeout : Nat) : Nat :=
  waitLoop query desired (2 * timeout) 0

/-- Python `==` between a `NodeAction` enum member and a string, as written on
line 134 (`params.action == NodeAction.HARD_RESET.value`): `Enum` members
compare by identity and define no cross-type equality with `str`, so this
comparison is always `False`. -/
def enumEqStr (_a : NodeAction) (_s : String) : Bool := false

/-- Python `==` between a string and a `NodeAction` enum member, as written on
line 135 (`params.action.value == NodeAction.DIAGNOSTIC_INTERRUPT`): a `str`
never equals an `Enum` member, so this comparison is always `False`. -/
def strEqEnum (_s : String) (_a : NodeAction) : Bool := false

/-- Model of `ipmi_action` (lines 126-169) over backend environment `env`.
Control flow mirrors the source: connect (parse, credential check, establish),
query the original power state when `is_restart`, dispatch `chassis_control`
(the `try` block catches only `IpmiConnectionError`), then, when waiting, the
phase-1 call `wait_for_power_state(conn, False)` — which in the source is
missing its required third argument and therefore raises `TypeError` — and
the phase-2 timed wait, and finally the result rule of lines 163-169.
Time is idealised: only the 0.5 s poll sleeps advance the clock, so a success
reports `ms_duration = 500 * sleeps`. Returns the outcome together with the
trace of backend effects. -/
def ipmi_action (p : NodeActionParams) (env : IpmiEnv) : PyResult × List BmEffect :=
  let is_restart := (p.action.value == "reboot") || enumEqStr p.action "hard_reset"
  let is_diagnostic_interrupt := strEqEnum p.action.value NodeAction.diagnostic_interrupt
  match get_ipmi_connection env p.addr p.user p.password with
  | (ConnStage.parseError, tr) =>
    (PyResult.raised "ValueError: invalid literal for int() with base 10", tr)
  | (ConnStage.missingCreds msg, tr) => (PyResult.ret (StepOutput.error msg), tr)
  | (ConnStage.establishFail msg, tr) =>
    (PyResult.ret (StepOutput.error ("Failed to connect: " ++ msg)), tr)
  | (ConnStage.ok, tr0) =>
    -- line 146: the original-state query is issued only when `is_restart`
    let original_power_state_on := env.states 0
    let q1 : Nat := if is_restart then 1 else 0
    let tr1 := tr0 ++ (if is_restart then [BmEffect.queryStatus] else [])
    match nodeActionEnumToInt p.action.value with
    | none => (PyResult.raised "KeyError", tr1)
    | some code =>
      -- line 149: the chassis_control call is attempted (and traced) even
      -- when the backend makes it raise IpmiConnectionError
      let tr2 := tr1 ++ [BmEffect.chassisControl code]
      match env.dispatchErr with
      | some e => (PyResult.ret (StepOutput.error ("Failed to connect: " ++ e)), tr2)
      | none =>
        if p.wait && (is_restart && original_power_state_on) then
          (PyResult.raised
            "TypeError: wait_for_power_state() missing 1 required positional argument: timeout",
            tr2)
        else
          let intended_final_power_state :=
            is_restart || (p.action.value == "start")
          let kstop := wait_for_power_state (fun j => env.states (q1 + j))
            intended_final_power_state p.wait_timeout
          let consumed := if p.wait && !is_diagnostic_interrupt then kstop + 1 else 0
          let sleeps := if p.wait && !is_diagnostic_interrupt then kstop else 0
          let tr3 := tr2 ++ List.replicate consumed BmEffect.queryStatus
          let final_power_state_on := env.states (q1 + consumed)
          let tr4 := tr3 ++ [BmEffect.queryStatus]
          if is_diagnostic_interrupt || !p.wait
              || (final_power_state_on == intended_final_power_state) then
            (PyResult.ret (StepOutput.success (500 * sleeps) final_power_state_on), tr4)
          else
            (PyResult.ret (StepOutput.error
              "Did not reach desired final state within timeout period"), tr4)

end BM

namespace AWS

/-- `NodeAction` of aws_control_plugin.py. -/
inductive NodeAction
  | stop | force_stop | start | reboot | terminate
deriving DecidableEq

/-- The `.value` string of each enum member. -/
def NodeAction.value : NodeAction → String
  | .stop => "stop"
  | .force_stop => "force_stop"
  | .start => "start"
  | .reboot => "reboot"
  | .terminate => "terminate"

/-- `NodeActionParams` of aws_control_plugin.py. -/
structure NodeActionParams where
  action : NodeAction
  instance_id : String
  aws_access_key_id : String
  aws_access_private_key : String
  aws_region : String
  wait : Bool
  wait_timeout : Nat

/-- Observable backend effects of one `aws_action` invocation. `loadState`
marks each fresh load of `resource.state` (the lazy first access, and each
`reload()`); the waiter effects record which boto3 waiter was invoked and,
for the timed ones, the timeout argument passed to `wait_for_power_state`. -/
inductive AwsEffect
  | startInstances
  | stopInstances (force : Bool)
  | rebootInstances
  | terminateInstances
  | loadState
  | waitRunning (timeout : Nat)
  | waitStopped (timeout : Nat)
  | waitTerminated
deriving DecidableEq

/-- Environment describing how the EC2 backend behaves during one invocation:
`states k` is the instance state name (`"running"`, `"stopped"`,
`"terminated"`, `"pending"`, ...) returned by the k-th fresh load of
`resource.state`; `dispatchErr` makes the EC2 command call raise (an uncaught
client error); `waitRunningOk`/`waitStoppedOk` give the outcome of the timed
waiters (`false` = `WaiterError`) as a function of the timeout argument;
`terminalWaitOk` is the outcome of `wait_until_terminated()`, which takes no
timeout; `elapsedMs` is the wall-clock duration a success reports. -/
structure AwsEnv where
  states : Nat → String
  dispatchErr : Option String
  waitRunningOk : Nat → Bool
  waitStoppedOk : Nat → Bool
  terminalWaitOk : Bool
  elapsedMs : Nat

/-- Model of the AWS `wait_for_power_state` (lines 86-90): delegate to the
boto3 waiter for the desired on/off state. Returns whether the waiter
completed (`false` = `WaiterError`) together with the effect it performed. -/
def wait_for_power_state (env : AwsEnv) (desired_power_state_on : Bool)
    (timeout : Nat) : Bool × AwsEffect :=
  if desired_power_state_on then
    (env.waitRunningOk timeout, AwsEffect.waitRunning timeout)
  else
    (env.waitStoppedOk timeout, AwsEffect.waitStopped timeout)

/-- The tail of `aws_action` after any waiting (lines 142-151):
`resource.reload()`, read the state name, and apply the success rule. The
reload is the load with index `loadIdx`; the error message on a state
mismatch re-reads the same cached state. -/
def aws_finish (p : NodeActionParams) (env : AwsEnv) (tr : List AwsEffect)
    (loadIdx : Nat) (intended : Bool) : PyResult × List AwsEffect :=
  let st := env.states loadIdx
  let final_power_state_on := st == "running"
  let tr2 := tr ++ [AwsEffect.loadState]
  if !p.wait || (final_power_state_on == intended) then
    (PyResult.ret (StepOutput.success env.elapsedMs final_power_state_on), tr2)
  else
    (PyResult.ret (StepOutput.error
      ("Did not reach desired final state within timeout period. Power state is " ++ st)),
     tr2)

/-- Model of `aws_action` (lines 100-151) over backend environment `env`.
Control flow mirrors the source: the reboot precondition (lines 111-113,
whose two reads of `resource.state` share one lazy load, index 0), the
dispatch chain keyed on `params.action.value` (lines 115-126), the wait
phase (lines 130-140: the timed waiter for every action except terminate,
`wait_until_terminated()` — no timeout argument — for terminate, with
`WaiterError` caught as a timeout error), then `aws_finish`. Returns the
outcome together with the trace of backend effects. -/
def aws_action (p : NodeActionParams) (env : AwsEnv) : PyResult × List AwsEffect :=
  if (p.action.value == "reboot")
      && ((env.states 0 == "stopped") || (env.states 0 == "terminated")) then
    (PyResult.ret (StepOutput.error "Node must be running to reboot."),
     [AwsEffect.loadState])
  else
    let tr0 : List AwsEffect :=
      if p.action.value == "reboot" then [AwsEffect.loadState] else []
    let loadIdx : Nat := if p.action.value == "reboot" then 1 else 0
    let dispatched : Option AwsEffect :=
      if p.action.value == "start" then some AwsEffect.startInstances
      else if p.action.value == "stop" then some (AwsEffect.stopInstances false)
      else if p.action.value == "force_stop" then some (AwsEffect.stopInstances true)
      else if p.action.value == "reboot" then some AwsEffect.rebootInstances
      else if p.action.value == "terminate" then some AwsEffect.terminateInstances
      else none
    match dispatched with
    | none =>
      (PyResult.ret (StepOutput.error ("Unknown action " ++ p.action.value)), tr0)
    | some eff =>
      match env.dispatchErr with
      | some e => (PyResult.raised e, tr0 ++ [eff])
      | none =>
        let intended := (p.action.value == "reboot") || (p.action.value == "start")
        if p.wait then
          if p.action.value != "terminate" then
            let w := wait_for_power_state env intended p.wait_timeout
            if !w.1 then
              (PyResult.ret (StepOutput.error
                "Failed due to timeout while waiting for final state."),
               tr0 ++ [eff, w.2])
            else aws_finish p env (tr0 ++ [eff, w.2]) loadIdx intended
          else
            if !env.terminalWaitOk then
              (PyResult.ret (StepOutput.error
                "Failed due to timeout while waiting for final state."),
               tr0 ++ [eff, AwsEffect.waitTerminated])
            else aws_finish p env (tr0 ++ [eff, AwsEffect.waitTerminated]) loadIdx intended
        else aws_finish p env (tr0 ++ [eff]) loadIdx intended

/-- `p` with its `wait_timeout` replaced by `t` (all other request fields
unchanged). -/
def setTimeout (p : NodeActionParams) (t : Nat) : NodeActionParams :=
  ⟨p.action, p.instance_id, p.aws_access_key_id, p.aws_access_private_key,
   p.aws_region, p.wait, t⟩

end AWS

namespace BM

/-- The chassis-control code of each action, as `nodeActionEnumToInt` maps its
value string (a derived abbreviation used to state dispatch lemmas). -/
def actionCode : NodeAction → Nat
  | .stop => 0
  | .start => 1
  | .reboot => 2
  | .hard_reset => 3
  | .diagnostic_interrupt => 4
  | .soft_stop => 5

end BM

/-! ## Theorems -/

namespace PyStr

theorem pyFind_eq_some (sub s : List Char) (i : Nat)
    (h : pyFind sub s = some i) :
    sub <+: s.drop i ∧ ∀ j, j < i → ¬ sub <+: s.drop j := by
  induction s generalizing i with
  | nil => simp [pyFind] at h
  | cons c rest ih =>
    by_cases hp : sub <+: (c :: rest)
    · simp [pyFind, hp] at h
      subst h
      exact ⟨hp, fun j hj => absurd hj (Nat.not_lt_zero j)⟩
    · simp [pyFind, hp] at h
      obtain ⟨i0, hi0, hsucc⟩ := h
      obtain ⟨h1, h2⟩ := ih i0 hi0
      subst hsucc
      refine ⟨by simpa using h1, ?_⟩
      intro j hj
      cases j with
      | zero => simpa using hp
      | succ j0 =>
        have : j0 < i0 := by omega
        simpa using h2 j0 this

theorem pyFind_eq_none (sub s : List Char) (hsub : sub ≠ [])
    (h : pyFind sub s = none) :
    ∀ i, ¬ sub <+: s.drop i := by
  induction s with
  | nil =>
    intro i
    cases sub with
    | nil => exact absurd rfl hsub
    | cons a as => simp
  | cons c rest ih =>
    by_cases hp : sub <+: (c :: rest)
    · simp [pyFind, hp] at h
    · simp [pyFind, hp] at h
      intro i
      cases i with
      | zero => simpa using hp
      | succ i0 => simpa using ih h i0

theorem pyFind_of_first (sub s : List Char) (i : Nat) (hsub : sub ≠ [])
    (h : isFirstOccurrenceAt sub s i) : pyFind sub s = some i := by
  obtain ⟨hocc, hmin⟩ := h
  cases hfind : pyFind sub s with
  | none => exact absurd hocc (pyFind_eq_none sub s hsub hfind i)
  | some i0 =>
    obtain ⟨h1, h2⟩ := pyFind_eq_some sub s i0 hfind
    rcases Nat.lt_trichotomy i i0 with hlt | heq | hgt
    · exact absurd hocc (h2 i hlt)
    · rw [heq]
    · exact absurd h1 (hmin i0 hgt)

theorem pyFind_of_nowhere (sub s : List Char)
    (h : ∀ i, ¬ sub <+: s.drop i) : pyFind sub s = none := by
  cases hfind : pyFind sub s with
  | none => rfl
  | some i0 =>
    obtain ⟨h1, _⟩ := pyFind_eq_some sub s i0 hfind
    exact absurd h1 (h i0)
end PyStr

namespace BM

theorem nodeActionEnumToInt_value (a : NodeAction) :
    nodeActionEnumToInt a.value = some (actionCode a) := by
  cases a <;> rfl

theorem waitLoop_spec (query : Nat → Bool) (desired : Bool) :
    ∀ (fuel k0 : Nat),
      k0 ≤ waitLoop query desired fuel k0 ∧
      waitLoop query desired fuel k0 ≤ k0 + fuel ∧
      (∀ j, k0 ≤ j → j < waitLoop query desired fuel k0 → query j ≠ desired) ∧
      (query (waitLoop query desired fuel k0) = desired ∨
        waitLoop query desired fuel k0 = k0 + fuel) := by
  intro fuel
  induction fuel with
  | zero =>
    intro k0
    refine ⟨Nat.le_refl _, by simp [waitLoop], ?_, Or.inr (by simp [waitLoop])⟩
    intro j h1 h2
    simp [waitLoop] at h2
    omega
  | succ f ih =>
    intro k0
    by_cases hq : query k0 = desired
    · refine ⟨by simp [waitLoop, hq], by simp [waitLoop, hq], ?_, ?_⟩
      · intro j h1 h2
        simp [waitLoop, hq] at h2
        omega
      · exact Or.inl (by simp [waitLoop, hq])
    · obtain ⟨ih1, ih2, ih3, ih4⟩ := ih (k0 + 1)
      have hred : waitLoop query desired (f + 1) k0 = waitLoop query desired f (k0 + 1) := by
        simp [waitLoop, hq]
      refine ⟨by omega, by omega, ?_, ?_⟩
      · intro j h1 h2
        rw [hred] at h2
        rcases Nat.eq_or_lt_of_le h1 with heq | hlt
        · rw [heq] at hq
          exact hq
        · exact ih3 j hlt h2
      · rw [hred]
        rcases ih4 with h | h
        · exact Or.inl h
        · exact Or.inr (by omega)

end BM

namespace BM

theorem ipmi_missing_creds_eval (p : NodeActionParams) (env : IpmiEnv)
    (hparse : (parseHostPort p.addr).isSome = true)
    (hcred : p.user = none ∨ p.password = none) :
    ipmi_action p env = (PyResult.ret (StepOutput.error missingCredsMsg), []) := by
  obtain ⟨hp, hhp⟩ := Option.isSome_iff_exists.mp hparse
  simp [ipmi_action, get_ipmi_connection, hhp, hcred]

theorem ipmi_establish_fail_eval (p : NodeActionParams) (env : IpmiEnv) (e : String)
    (hparse : (parseHostPort p.addr).isSome = true)
    (hu : p.user ≠ none) (hpw : p.password ≠ none)
    (he : env.establishErr = some e) :
    ipmi_action p env =
      (PyResult.ret (StepOutput.error ("Failed to connect: " ++ e)),
       [BmEffect.establish]) := by
  obtain ⟨hp, hhp⟩ := Option.isSome_iff_exists.mp hparse
  obtain ⟨u, hu2⟩ := Option.ne_none_iff_exists'.mp hu
  obtain ⟨pw, hpw2⟩ := Option.ne_none_iff_exists'.mp hpw
  simp [ipmi_action, get_ipmi_connection, hhp, hu2, hpw2, he]

theorem ipmi_dispatch_fail_eval (p : NodeActionParams) (env : IpmiEnv) (e : String)
    (hparse : (parseHostPort p.addr).isSome = true)
    (hu : p.user ≠ none) (hpw : p.password ≠ none)
    (he : env.establishErr = none) (hd : env.dispatchErr = some e) :
    (ipmi_action p env).1 =
      PyResult.ret (StepOutput.error ("Failed to connect: " ++ e)) := by
  obtain ⟨hp, hhp⟩ := Option.isSome_iff_exists.mp hparse
  obtain ⟨u, hu2⟩ := Option.ne_none_iff_exists'.mp hu
  obtain ⟨pw, hpw2⟩ := Option.ne_none_iff_exists'.mp hpw
  cases hA : p.action <;>
    simp [ipmi_action, get_ipmi_connection, nodeActionEnumToInt, NodeAction.value,
      List.lookup, hhp, hu2, hpw2, he, hd, hA]

theorem ipmi_nowait_ok_eval (p : NodeActionParams) (env : IpmiEnv)
    (hw : p.wait = false)
    (hparse : (parseHostPort p.addr).isSome = true)
    (hu : p.user ≠ none) (hpw : p.password ≠ none)
    (he : env.establishErr = none) (hd : env.dispatchErr = none) :
    (ipmi_action p env).1 =
      PyResult.ret (StepOutput.success 0
        (env.states (if p.action = NodeAction.reboot then 1 else 0))) := by
  obtain ⟨hp, hhp⟩ := Option.isSome_iff_exists.mp hparse
  obtain ⟨u, hu2⟩ := Option.ne_none_iff_exists'.mp hu
  obtain ⟨pw, hpw2⟩ := Option.ne_none_iff_exists'.mp hpw
  cases hA : p.action <;>
    simp [ipmi_action, get_ipmi_connection, nodeActionEnumToInt, NodeAction.value,
      List.lookup, enumEqStr, strEqEnum, hhp, hu2, hpw2, he, hd, hw, hA]

end BM

namespace AWS

theorem aws_reboot_precondition_eval (p : NodeActionParams) (env : AwsEnv)
    (ha : p.action = NodeAction.reboot)
    (hs : env.states 0 = "stopped" ∨ env.states 0 = "terminated") :
    aws_action p env =
      (PyResult.ret (StepOutput.error "Node must be running to reboot."),
       [AwsEffect.loadState]) := by
  rcases hs with hs | hs <;> simp [aws_action, ha, NodeAction.value, hs]

theorem aws_raised_eval (p : NodeActionParams) (env : AwsEnv) (e : String)
    (hd : env.dispatchErr = some e)
    (hpre : ¬(p.action = NodeAction.reboot ∧
      (env.states 0 = "stopped" ∨ env.states 0 = "terminated"))) :
    (aws_action p env).1 = PyResult.raised e := by
  cases hA : p.action
  case reboot =>
    have hX : ¬(env.states 0 = "stopped" ∨ env.states 0 = "terminated") :=
      fun hx => hpre ⟨hA, hx⟩
    push_neg at hX
    obtain ⟨h1, h2⟩ := hX
    simp [aws_action, hA, NodeAction.value, hd, h1, h2]
  all_goals simp [aws_action, hA, NodeAction.value, hd]

theorem aws_nowait_ok_eval (p : NodeActionParams) (env : AwsEnv)
    (hw : p.wait = false) (hd : env.dispatchErr = none)
    (hpre : ¬(p.action = NodeAction.reboot ∧
      (env.states 0 = "stopped" ∨ env.states 0 = "terminated"))) :
    (aws_action p env).1 =
      PyResult.ret (StepOutput.success env.elapsedMs
        (env.states (if p.action = NodeAction.reboot then 1 else 0) == "running")) := by
  cases hA : p.action
  case reboot =>
    have hX : ¬(env.states 0 = "stopped" ∨ env.states 0 = "terminated") :=
      fun hx => hpre ⟨hA, hx⟩
    push_neg at hX
    obtain ⟨h1, h2⟩ := hX
    simp [aws_action, aws_finish, hA, NodeAction.value, hd, hw, h1, h2]
  all_goals simp [aws_action, aws_finish, hA, NodeAction.value, hd, hw]

end AWS

/-- C8: the non-restart poll loop `wait_for_power_state` terminates within the
`wait_timeout` deadline measured from loop entry (with a fresh state query at
each 0.5 s tick `j`, so tick `2 * timeout` is the deadline): the index of the
last query issued is at most `2 * timeout`, every earlier query returned a
state different from the desired one (so the loop returns as soon as the
observed state equals the desired state, and each iteration consults a fresh
query rather than a cached one), and the loop exits either because the last
query observed the desired state or exactly at the deadline. -/
theorem c8_wait_poll_loop_bounded_and_fresh (query : Nat → Bool) (desired : Bool)
    (timeout : Nat) :
    BM.wait_for_power_state query desired timeout ≤ 2 * timeout ∧
    (∀ j, j < BM.wait_for_power_state query desired timeout → query j ≠ desired) ∧
    (query (BM.wait_for_power_state query desired timeout) = desired ∨
      BM.wait_for_power_state query desired timeout = 2 * timeout) := by
  obtain ⟨h1, h2, h3, h4⟩ := BM.waitLoop_spec query desired (2 * timeout) 0
  refine ⟨by simpa [BM.wait_for_power_state] using h2, ?_, ?_⟩
  · intro j hj
    exact h3 j (Nat.zero_le j) hj
  · simpa [BM.wait_for_power_state] using h4

/-- Witness for C8: on a backend whose third query first reports the desired
state, the loop stops within the deadline of a 5-second timeout. -/
theorem c8_witness :
    BM.wait_for_power_state (fun j => decide (2 ≤ j)) true 5 ≤ 2 * 5 :=
  (c8_wait_poll_loop_bounded_and_fresh (fun j => decide (2 ≤ j)) true 5).1

/-- C9: address parsing in `get_ipmi_connection`. If `"://"` occurs in the
address, everything up to and including its first occurrence is stripped
before further parsing; if no `"://"` occurs the address is kept whole. Then,
if the remaining host contains `":"`, the substring after the first `":"` is
parsed by `int()` as the port and removed from the host; otherwise the port
defaults to 623. -/
theorem c9_address_parsing_first_occurrence (addr : List Char) :
    (∀ i, PyStr.isFirstOccurrenceAt BM.schemeChars addr i →
        BM.hostAfterScheme addr = addr.drop (i + 3)) ∧
    ((∀ i, ¬ BM.schemeChars <+: addr.drop i) → BM.hostAfterScheme addr = addr) ∧
    (∀ j, PyStr.isFirstOccurrenceAt [':'] (BM.hostAfterScheme addr) j →
        BM.parseHostPort addr =
          (PyStr.pythonInt ((BM.hostAfterScheme addr).drop (j + 1))).map
            (fun port => ((BM.hostAfterScheme addr).take j, port))) ∧
    ((∀ j, ¬ [':'] <+: (BM.hostAfterScheme addr).drop j) →
        BM.parseHostPort addr = some (BM.hostAfterScheme addr, 623)) := by
  refine ⟨?_, ?_, ?_, ?_⟩
  · intro i hi
    have hf := PyStr.pyFind_of_first BM.schemeChars addr i (by decide) hi
    simp [BM.hostAfterScheme, hf]
  · intro h
    have hf := PyStr.pyFind_of_nowhere BM.schemeChars addr h
    simp [BM.hostAfterScheme, hf]
  · intro j hj
    have hf := PyStr.pyFind_of_first [':'] (BM.hostAfterScheme addr) j (by decide) hj
    simp [BM.parseHostPort, hf]
  · intro h
    have hf := PyStr.pyFind_of_nowhere [':'] (BM.hostAfterScheme addr) h
    simp [BM.parseHostPort, hf]

/-- Witness for C9: the address `ipmi://10.0.0.1:624` is stripped of its
scheme (first `"://"` at index 4) and split at the first `":"` of the
remaining host (index 8) into host `10.0.0.1` and port 624. -/
theorem c9_witness :
    BM.hostAfterScheme ("ipmi://10.0.0.1:624".toList) = "10.0.0.1:624".toList ∧
    BM.parseHostPort ("ipmi://10.0.0.1:624".toList) = some ("10.0.0.1".toList, 624) := by
  have h := c9_address_parsing_first_occurrence ("ipmi://10.0.0.1:624".toList)
  constructor
  · have h1 := h.1 4 (by decide)
    rw [h1]
    decide
  · have h3 := h.2.2.1 8 (by decide)
    rw [h3]
    decide

/-- C10: when the user or the password is `None`, `ipmi_action` returns the
error output whose message names the missing IPMI user/password, and no
backend session is established and no chassis command is issued (the effect
trace is empty); moreover the message indeed contains the words
"user and/or password". -/
theorem c10_missing_credentials_error_no_backend_calls
    (p : BM.NodeActionParams) (env : BM.IpmiEnv)
    (hparse : (BM.parseHostPort p.addr).isSome = true)
    (hcred : p.user = none ∨ p.password = none) :
    BM.ipmi_action p env = (PyResult.ret (StepOutput.error BM.missingCredsMsg), []) ∧
    (PyStr.pyFind ("user and/or password".toList) (BM.missingCredsMsg.toList)).isSome
      = true :=
  ⟨BM.ipmi_missing_creds_eval p env hparse hcred, by decide⟩

/-- Witness for C10: a request with a missing user on a well-formed address. -/
theorem c10_witness :
    BM.ipmi_action
        ⟨BM.NodeAction.start, "1.2.3.4".toList, none, some "pw", true, 30⟩
        ⟨none, none, fun _ => true⟩
      = (PyResult.ret (StepOutput.error BM.missingCredsMsg), []) :=
  (c10_missing_credentials_error_no_backend_calls
    ⟨BM.NodeAction.start, "1.2.3.4".toList, none, some "pw", true, 30⟩
    ⟨none, none, fun _ => true⟩ (by decide) (Or.inl rfl)).1

/-- C1 (code-bug exhibit): a `DiagnosticInterrupt` request with `wait = true`,
a working backend and a node that stays powered on. Line 135 compares the
string `params.action.value` with the enum member
`NodeAction.DIAGNOSTIC_INTERRUPT` (not its `.value`), which is always false,
so the diagnostic-interrupt exemptions never fire: the code polls for the
(meaningless) intended state `off` and returns the final-state-mismatch
error instead of the immediate success the claim requires. -/
theorem c1_diagnostic_interrupt_returns_mismatch_error :
    (BM.ipmi_action
        ⟨BM.NodeAction.diagnostic_interrupt, "1.2.3.4".toList, some "u", some "p", true, 1⟩
        ⟨none, none, fun _ => true⟩).1
      = PyResult.ret
          (StepOutput.error "Did not reach desired final state within timeout period") := by
  decide

/-- C2 (code-bug exhibit): a `HardReset` request with `wait = true`, a working
backend and a node observed on throughout. Line 134 compares the enum member
`params.action` with the string `NodeAction.HARD_RESET.value`, which is always
false, so `HardReset` is not classified as a restart: no original-state query
and no two-phase wait happen (the trace holds no pre-dispatch query), the
intended final state is computed as `off` instead of `on`, and with the node
on the call returns the mismatch error where the claim requires success. -/
theorem c2_hard_reset_not_treated_as_restart :
    BM.ipmi_action
        ⟨BM.NodeAction.hard_reset, "1.2.3.4".toList, some "u", some "p", true, 1⟩
        ⟨none, none, fun _ => true⟩
      = (PyResult.ret
          (StepOutput.error "Did not reach desired final state within timeout period"),
         [BM.BmEffect.establish, BM.BmEffect.chassisControl 3,
          BM.BmEffect.queryStatus, BM.BmEffect.queryStatus, BM.BmEffect.queryStatus,
          BM.BmEffect.queryStatus]) := by
  decide

/-- C4 (code-bug exhibit): a `Reboot` request with `wait = true` on a node
originally observed on. The phase-1 wait at line 157 calls
`wait_for_power_state(conn, False)` without the required third `timeout`
argument, so the call raises an uncaught `TypeError` instead of returning a
typed outcome. -/
theorem c4_reboot_wait_raises_type_error :
    (BM.ipmi_action
        ⟨BM.NodeAction.reboot, "1.2.3.4".toList, some "u", some "p", true, 1⟩
        ⟨none, none, fun _ => true⟩).1
      = PyResult.raised
          "TypeError: wait_for_power_state() missing 1 required positional argument: timeout" := by
  decide

/-- C5 (code-bug exhibit): a `Reboot` request with `wait = true` on a node
that is on and never reports off. On the IPMI backend the call does not end
in the success outcome or a timeout error: the phase-1 wait raises an
uncaught `TypeError` (missing `timeout` argument) as soon as it is entered. -/
theorem c5_reboot_wait_neither_success_nor_timeout :
    (BM.ipmi_action
        ⟨BM.NodeAction.reboot, "ipmi://10.1.1.1:623".toList, some "admin", some "pw", true, 30⟩
        ⟨none, none, fun _ => true⟩).1
      = PyResult.raised
          "TypeError: wait_for_power_state() missing 1 required positional argument: timeout" := by
  decide

/-- C3 (counterexample): on the IPMI backend, a `Reboot` requested while the
node's observed state is off is not rejected: no precondition error is
returned (the call succeeds) and the chassis power-cycle command (code 2) is
dispatched to the backend, contradicting the claim for the IPMI backend. -/
theorem c3_counterexample_ipmi_reboot_off_dispatches :
    BM.ipmi_action
        ⟨BM.NodeAction.reboot, "1.2.3.4".toList, some "u", some "p", false, 30⟩
        ⟨none, none, fun _ => false⟩
      = (PyResult.ret (StepOutput.success 0 false),
         [BM.BmEffect.establish, BM.BmEffect.queryStatus,
          BM.BmEffect.chassisControl 2, BM.BmEffect.queryStatus]) := by
  decide

/-- C3 (amended): only on the AWS backend, a `Reboot` requested while the
observed instance state is `stopped` or `terminated` returns the precondition
error "Node must be running to reboot." and issues no backend command (the
only effect is the state load that evaluated the precondition); the IPMI
backend performs no such check and dispatches the command regardless. -/
theorem c3_aws_reboot_precondition_no_dispatch
    (p : AWS.NodeActionParams) (env : AWS.AwsEnv)
    (ha : p.action = AWS.NodeAction.reboot)
    (hs : env.states 0 = "stopped" ∨ env.states 0 = "terminated") :
    AWS.aws_action p env =
      (PyResult.ret (StepOutput.error "Node must be running to reboot."),
       [AWS.AwsEffect.loadState]) :=
  AWS.aws_reboot_precondition_eval p env ha hs

/-- Witness for C3 (amended): a stopped instance rejected before dispatch. -/
theorem c3_witness :
    AWS.aws_action
        ⟨AWS.NodeAction.reboot, "i-1", "k", "s", "r", true, 30⟩
        ⟨fun _ => "stopped", none, fun _ => true, fun _ => true, true, 7⟩
      = (PyResult.ret (StepOutput.error "Node must be running to reboot."),
         [AWS.AwsEffect.loadState]) :=
  c3_aws_reboot_precondition_no_dispatch
    ⟨AWS.NodeAction.reboot, "i-1", "k", "s", "r", true, 30⟩
    ⟨fun _ => "stopped", none, fun _ => true, fun _ => true, true, 7⟩
    rfl (Or.inl rfl)

/-- C6: for every action with `wait = false`, on both backends, the operation
returns the success outcome exactly when the dispatched command was accepted
(no connection, precondition or unsupported-action error occurred) — the
observed final power state has no influence on the outcome — and the success
output still reports, in `final_power_state_on`, one freshly queried final
state (query index 1 for the IPMI restart case, which queried the original
state first, and load index 1 for the AWS reboot case, which loaded the state
for the precondition first; index 0 otherwise). -/
theorem c6_nowait_success_iff_dispatch_accepted :
    (∀ (p : BM.NodeActionParams) (env : BM.IpmiEnv),
      p.wait = false → (BM.parseHostPort p.addr).isSome = true →
      ((∃ ms b, (BM.ipmi_action p env).1 = PyResult.ret (StepOutput.success ms b)) ↔
        (p.user ≠ none ∧ p.password ≠ none ∧
          env.establishErr = none ∧ env.dispatchErr = none)) ∧
      (p.user ≠ none → p.password ≠ none →
        env.establishErr = none → env.dispatchErr = none →
        (BM.ipmi_action p env).1 = PyResult.ret (StepOutput.success 0
          (env.states (if p.action = BM.NodeAction.reboot then 1 else 0))))) ∧
    (∀ (p : AWS.NodeActionParams) (env : AWS.AwsEnv),
      p.wait = false →
      ((∃ ms b, (AWS.aws_action p env).1 = PyResult.ret (StepOutput.success ms b)) ↔
        (env.dispatchErr = none ∧
          ¬(p.action = AWS.NodeAction.reboot ∧
            (env.states 0 = "stopped" ∨ env.states 0 = "terminated")))) ∧
      (env.dispatchErr = none →
        ¬(p.action = AWS.NodeAction.reboot ∧
          (env.states 0 = "stopped" ∨ env.states 0 = "terminated")) →
        (AWS.aws_action p env).1 = PyResult.ret (StepOutput.success env.elapsedMs
          (env.states (if p.action = AWS.NodeAction.reboot then 1 else 0)
            == "running")))) := by
  constructor
  · intro p env hw hparse
    constructor
    · constructor
      · rintro ⟨ms, b, hs⟩
        rcases hu : p.user with _ | u
        · rw [BM.ipmi_missing_creds_eval p env hparse (Or.inl hu)] at hs
          simp at hs
        rcases hpw : p.password with _ | pw
        · rw [BM.ipmi_missing_creds_eval p env hparse (Or.inr hpw)] at hs
          simp at hs
        cases he : env.establishErr with
        | some e =>
          rw [BM.ipmi_establish_fail_eval p env e hparse
            (by simp [hu]) (by simp [hpw]) he] at hs
          simp at hs
        | none =>
          cases hd : env.dispatchErr with
          | some e =>
            rw [BM.ipmi_dispatch_fail_eval p env e hparse
              (by simp [hu]) (by simp [hpw]) he hd] at hs
            simp at hs
          | none => exact ⟨by simp [hu], by simp [hpw], rfl, rfl⟩
      · rintro ⟨hu, hpw, he, hd⟩
        exact ⟨0, _, BM.ipmi_nowait_ok_eval p env hw hparse hu hpw he hd⟩
    · intro hu hpw he hd
      exact BM.ipmi_nowait_ok_eval p env hw hparse hu hpw he hd
  · intro p env hw
    constructor
    · constructor
      · rintro ⟨ms, b, hs⟩
        by_cases hpre : p.action = AWS.NodeAction.reboot ∧
            (env.states 0 = "stopped" ∨ env.states 0 = "terminated")
        · rw [AWS.aws_reboot_precondition_eval p env hpre.1 hpre.2] at hs
          simp at hs
        · cases hd : env.dispatchErr with
          | some e =>
            rw [AWS.aws_raised_eval p env e hd hpre] at hs
            simp at hs
          | none => exact ⟨rfl, hpre⟩
      · rintro ⟨hd, hpre⟩
        exact ⟨env.elapsedMs, _, AWS.aws_nowait_ok_eval p env hw hd hpre⟩
    · intro hd hpre
      exact AWS.aws_nowait_ok_eval p env hw hd hpre

/-- Witness for C6: `Start` with `wait = false` on each backend, with a
working backend, succeeds and reports the freshly observed state. -/
theorem c6_witness :
    (BM.ipmi_action
        ⟨BM.NodeAction.start, "1.2.3.4".toList, some "u", some "p", false, 30⟩
        ⟨none, none, fun _ => true⟩).1
      = PyResult.ret (StepOutput.success 0 true) ∧
    (AWS.aws_action
        ⟨AWS.NodeAction.start, "i-1", "k", "s", "r", false, 30⟩
        ⟨fun _ => "running", none, fun _ => true, fun _ => true, true, 7⟩).1
      = PyResult.ret (StepOutput.success 7 true) := by
  constructor
  · have h := (c6_nowait_success_iff_dispatch_accepted.1
      ⟨BM.NodeAction.start, "1.2.3.4".toList, some "u", some "p", false, 30⟩
      ⟨none, none, fun _ => true⟩ rfl (by decide)).2
      (by simp) (by simp) rfl rfl
    simpa using h
  · have h := (c6_nowait_success_iff_dispatch_accepted.2
      ⟨AWS.NodeAction.start, "i-1", "k", "s", "r", false, 30⟩
      ⟨fun _ => "running", none, fun _ => true, fun _ => true, true, 7⟩ rfl).2
      rfl (by simp)
    simpa using h

/-- C7: a `Terminate` request with `wait = true` waits through the backend's
`wait_until_terminated()` primitive, which takes no timeout: the result is
identical whatever `wait_timeout` the caller supplied, the trace holds the
terminal-wait effect and no timed-waiter effect, and once the terminal state
is observed the result is the success outcome with
`final_power_state_on = false`. -/
theorem c7_terminate_wait_ignores_timeout (p : AWS.NodeActionParams) (env : AWS.AwsEnv)
    (ha : p.action = AWS.NodeAction.terminate) (hw : p.wait = true) :
    (∀ t1 t2, AWS.aws_action (AWS.setTimeout p t1) env
        = AWS.aws_action (AWS.setTimeout p t2) env) ∧
    (env.dispatchErr = none → env.terminalWaitOk = true →
      env.states 0 = "terminated" →
      (AWS.aws_action p env).1 = PyResult.ret (StepOutput.success env.elapsedMs false) ∧
      AWS.AwsEffect.waitTerminated ∈ (AWS.aws_action p env).2 ∧
      (∀ t, AWS.AwsEffect.waitRunning t ∉ (AWS.aws_action p env).2 ∧
            AWS.AwsEffect.waitStopped t ∉ (AWS.aws_action p env).2)) := by
  constructor
  · intro t1 t2
    cases hd : env.dispatchErr <;> cases ht : env.terminalWaitOk <;>
      simp [AWS.aws_action, AWS.setTimeout, AWS.NodeAction.value, AWS.aws_finish,
        ha, hw, hd, ht]
  · intro hd hterm hstate
    have hred : AWS.aws_action p env =
        (PyResult.ret (StepOutput.success env.elapsedMs false),
         [AWS.AwsEffect.terminateInstances, AWS.AwsEffect.waitTerminated,
          AWS.AwsEffect.loadState]) := by
      simp [AWS.aws_action, AWS.NodeAction.value, AWS.aws_finish, ha, hw, hd,
        hterm, hstate]
    rw [hred]
    exact ⟨rfl, by simp, fun t => ⟨by simp, by simp⟩⟩

/-- Witness for C7: terminating a node that reaches the terminal state, with
two different timeouts yielding identical results. -/
theorem c7_witness :
    AWS.aws_action
        (AWS.setTimeout ⟨AWS.NodeAction.terminate, "i-1", "k", "s", "r", true, 30⟩ 1)
        ⟨fun _ => "terminated", none, fun _ => true, fun _ => true, true, 7⟩
      = AWS.aws_action
          (AWS.setTimeout ⟨AWS.NodeAction.terminate, "i-1", "k", "s", "r", true, 30⟩ 99)
          ⟨fun _ => "terminated", none, fun _ => true, fun _ => true, true, 7⟩ :=
  (c7_terminate_wait_ignores_timeout
    ⟨AWS.NodeAction.terminate, "i-1", "k", "s", "r", true, 30⟩
    ⟨fun _ => "terminated", none, fun _ => true, fun _ => true, true, 7⟩
    rfl rfl).1 1 99
